import Mathlib

/-!
Verification development for the TOMELON serverless analysis endpoint
(`src/api/analyze.js`).  The handler is a single stateless request/response
pipeline: CORS/method handling, credential check, prompt assembly per parse
mode, message assembly (text or image), one outbound call to the model
provider, and best-effort normalization of the model reply (markdown fence
stripping followed by strict JSON parsing, with a raw-text fallback).

The embedding below translates that pipeline into executable Lean
definitions.  `JSON.parse` (a platform builtin used on line 207 of
analyze.js) is modelled by `parseJson`, a strict ECMA-404 recursive-descent
parser over the characters of the input; numbers are kept as their source
lexemes since only syntactic validity and structural identity of the parsed
value matter here.
-/

set_option autoImplicit false

namespace Tomelon

/-- A parsed JSON value, as produced by the model of `JSON.parse`.  Numeric
literals are retained as their lexemes; object members are kept in source
order. -/
inductive JsonValue where
  | null
  | bool (b : Bool)
  | num (lexeme : String)
  | str (s : String)
  | arr (elems : List JsonValue)
  | obj (members : List (String × JsonValue))

/-- The four JSON whitespace characters accepted by `JSON.parse` between
tokens (ECMA-404): space, tab, line feed, carriage return. -/
def isJsonWs (c : Char) : Bool :=
  c = ' ' || c = '\t' || c = '\n' || c = '\r'

/-- Skip JSON inter-token whitespace. -/
def skipWs (cs : List Char) : List Char :=
  cs.dropWhile isJsonWs

/-- ASCII decimal digit test, by code point (48-57). -/
def isDig (c : Char) : Bool :=
  let n := c.toNat
  48 ≤ n && n ≤ 57

/-- Value of one hexadecimal digit, if any, by code point: the decimal
digits, then the lowercase letter range a-f, then the uppercase A-F. -/
def hexDigitVal (c : Char) : Option Nat :=
  let n := c.toNat
  if 48 ≤ n && n ≤ 57 then some (n - 48)
  else if 97 ≤ n && n ≤ 102 then some (n - 87)
  else if 65 ≤ n && n ≤ 70 then some (n - 55)
  else none

/-- Value of a four-hex-digit escape sequence. -/
def hexQuad (h1 h2 h3 h4 : Char) : Option Nat :=
  match hexDigitVal h1, hexDigitVal h2, hexDigitVal h3, hexDigitVal h4 with
  | some x, some y, some z, some w => some (x * 4096 + y * 256 + z * 16 + w)
  | _, _, _, _ => none

/-- Decoding of a single-character JSON string escape. -/
def escapeChar (e : Char) : Option Char :=
  if e = '"' then some '"'
  else if e = '\\' then some '\\'
  else if e = '/' then some '/'
  else if e = 'b' then some '\x08'
  else if e = 'f' then some '\x0c'
  else if e = 'n' then some '\n'
  else if e = 'r' then some '\r'
  else if e = 't' then some '\t'
  else none

/-- Parse the body of a JSON string after the opening quote, returning the
decoded characters and the remaining input after the closing quote.
`\uXXXX` escapes are decoded, combining surrogate pairs; a lone surrogate is
rejected (the one narrowing relative to JavaScript strings, whose code units
need not form scalar values — no claim below depends on it). -/
def parseStringChars : List Char → Option (List Char × List Char)
  | [] => none
  | '"' :: rest => some ([], rest)
  | '\\' :: 'u' :: h1 :: h2 :: h3 :: h4 :: tl =>
    match hexQuad h1 h2 h3 h4 with
    | none => none
    | some n =>
      if n < 0xD800 || 0xDFFF < n then
        match parseStringChars tl with
        | some (s, r) => some (Char.ofNat n :: s, r)
        | none => none
      else if n ≤ 0xDBFF then
        match tl with
        | '\\' :: 'u' :: g1 :: g2 :: g3 :: g4 :: tl2 =>
          match hexQuad g1 g2 g3 g4 with
          | none => none
          | some m =>
            if 0xDC00 ≤ m && m ≤ 0xDFFF then
              match parseStringChars tl2 with
              | some (s, r) =>
                some (Char.ofNat (0x10000 + (n - 0xD800) * 0x400 + (m - 0xDC00)) :: s, r)
              | none => none
            else none
        | _ => none
      else none
  | '\\' :: e :: rest =>
    match escapeChar e with
    | none => none
    | some ch =>
      match parseStringChars rest with
      | some (s, r) => some (ch :: s, r)
      | none => none
  | c :: rest =>
    if c.toNat < 32 then none
    else
      match parseStringChars rest with
      | some (s, r) => some (c :: s, r)
      | none => none

/-- Longest run of decimal digits at the head of the input, and the rest. -/
def digitsSpan (cs : List Char) : List Char × List Char :=
  (cs.takeWhile isDig, cs.dropWhile isDig)

/-- Integer part of a JSON number: `0`, or a nonzero digit followed by
digits. -/
def parseIntPart (cs : List Char) : Option (List Char × List Char) :=
  match cs with
  | '0' :: r => some (['0'], r)
  | c :: r =>
    if isDig c then
      let p := digitsSpan r
      some (c :: p.1, p.2)
    else none
  | [] => none

/-- Optional fraction part of a JSON number: `.` followed by one or more
digits, or nothing. -/
def parseFracPart (cs : List Char) : Option (List Char × List Char) :=
  match cs with
  | '.' :: r =>
    let p := digitsSpan r
    if p.1.isEmpty then none else some ('.' :: p.1, p.2)
  | _ => some ([], cs)

/-- Exponent digits after `e`/`E`, with an optional sign. -/
def parseExpTail (e : Char) (r : List Char) : Option (List Char × List Char) :=
  let q : List Char × List Char :=
    match r with
    | '+' :: rr => (['+'], rr)
    | '-' :: rr => (['-'], rr)
    | _ => ([], r)
  let p := digitsSpan q.2
  if p.1.isEmpty then none else some (e :: (q.1 ++ p.1), p.2)

/-- Optional exponent part of a JSON number. -/
def parseExpPart (cs : List Char) : Option (List Char × List Char) :=
  match cs with
  | 'e' :: r => parseExpTail 'e' r
  | 'E' :: r => parseExpTail 'E' r
  | _ => some ([], cs)

/-- Lexeme of a JSON number at the head of the input
(`-? int frac? exp?`), and the remaining input. -/
def parseNumberLex (cs : List Char) : Option (String × List Char) :=
  let q : List Char × List Char :=
    match cs with
    | '-' :: r => (['-'], r)
    | _ => ([], cs)
  match parseIntPart q.2 with
  | none => none
  | some (ip, r1) =>
    match parseFracPart r1 with
    | none => none
    | some (fp, r2) =>
      match parseExpPart r2 with
      | none => none
      | some (ep, r3) => some (String.mk (q.1 ++ ip ++ fp ++ ep), r3)

mutual

/-- Parse one JSON value at the head of the input.  The fuel argument only
bounds nesting/iteration depth; `parseJson` supplies enough for any input. -/
def parseValue : Nat → List Char → Option (JsonValue × List Char)
  | 0, _ => none
  | fuel + 1, cs =>
    match cs with
    | 'n' :: 'u' :: 'l' :: 'l' :: restN => some (JsonValue.null, restN)
    | 'f' :: 'a' :: 'l' :: 's' :: 'e' :: restF => some (JsonValue.bool false, restF)
    | 't' :: 'r' :: 'u' :: 'e' :: restT => some (JsonValue.bool true, restT)
    | '"' :: restQ =>
      match parseStringChars restQ with
      | some (s, rest) => some (JsonValue.str (String.mk s), rest)
      | none => none
    | '[' :: restA => parseArrayRest fuel (skipWs restA)
    | '\x7b' :: restO => parseObjRest fuel (skipWs restO)
    | _ =>
      match parseNumberLex cs with
      | some (lex, rest) => some (JsonValue.num lex, rest)
      | none => none

/-- Parse the remainder of an array after `[` (whitespace already skipped). -/
def parseArrayRest : Nat → List Char → Option (JsonValue × List Char)
  | 0, _ => none
  | fuel + 1, cs =>
    match cs with
    | ']' :: r => some (JsonValue.arr [], r)
    | _ =>
      match parseValue fuel cs with
      | some (v, r) => parseArrayTail fuel [v] (skipWs r)
      | none => none

/-- Parse `, value`* `]` continuing an array; `acc` holds the elements read
so far, in reverse. -/
def parseArrayTail : Nat → List JsonValue → List Char → Option (JsonValue × List Char)
  | 0, _, _ => none
  | fuel + 1, acc, cs =>
    match cs with
    | ']' :: r => some (JsonValue.arr acc.reverse, r)
    | ',' :: r =>
      match parseValue fuel (skipWs r) with
      | some (v, r2) => parseArrayTail fuel (v :: acc) (skipWs r2)
      | none => none
    | _ => none

/-- Parse the remainder of an object after the opening brace (whitespace
already skipped). -/
def parseObjRest : Nat → List Char → Option (JsonValue × List Char)
  | 0, _ => none
  | fuel + 1, cs =>
    match cs with
    | '\x7d' :: r => some (JsonValue.obj [], r)
    | _ =>
      match parseMember fuel cs with
      | some (kv, r) => parseObjTail fuel [kv] (skipWs r)
      | none => none

/-- Parse one `"key" : value` member of an object. -/
def parseMember : Nat → List Char → Option ((String × JsonValue) × List Char)
  | 0, _ => none
  | fuel + 1, cs =>
    match cs with
    | '"' :: r =>
      match parseStringChars r with
      | some (k, r1) =>
        match skipWs r1 with
        | ':' :: r2 =>
          match parseValue fuel (skipWs r2) with
          | some (v, r3) => some ((String.mk k, v), r3)
          | none => none
        | _ => none
      | none => none
    | _ => none

/-- Parse `, member`* and the closing brace continuing an object; `acc`
holds the members read so far, in reverse. -/
def parseObjTail : Nat → List (String × JsonValue) → List Char → Option (JsonValue × List Char)
  | 0, _, _ => none
  | fuel + 1, acc, cs =>
    match cs with
    | '\x7d' :: r => some (JsonValue.obj acc.reverse, r)
    | ',' :: r =>
      match parseMember fuel (skipWs r) with
      | some (kv, r2) => parseObjTail fuel (kv :: acc) (skipWs r2)
      | none => none
    | _ => none

end

/-- Model of `JSON.parse` (ECMA-404 / ECMA-262 `JSON.parse` without a
reviver): one JSON value surrounded by optional JSON whitespace; anything
else fails.  The fuel is generous — every recursive call either consumes
input or is one of a bounded number of steps per consumed character. -/
def parseJson (s : String) : Option JsonValue :=
  match parseValue (4 * s.data.length + 8) (skipWs s.data) with
  | some (v, rest) => if (skipWs rest).isEmpty then some v else none
  | none => none

/-! ## Response normalization (analyze.js lines 199-221)

The handler takes the text of the model reply, trims it, and — when it
starts with three backticks — applies two JavaScript regex replacements:

* `replace of the pattern backtick backtick backtick j s o n? newline?`
  with the global flag, which removes EVERY occurrence of three backticks
  followed by the letters `jso`, an optional `n` and an optional newline
  (note the `?` binds only to the final `n`, so the letters `jso` are
  mandatory — a bare fence is not matched);
* `replace of the pattern backtick backtick backtick whitespace* end`
  with the global flag, which removes one trailing run of three backticks
  followed only by whitespace at the very end of the string;

then trims again and attempts `JSON.parse`.  On parse failure the original
(untrimmed) reply text is returned as a successful raw fallback. -/

/-- JavaScript whitespace, as recognised by `String.prototype.trim` and the
regex class `\s` (ECMA-262 WhiteSpace and LineTerminator). -/
def isJsWs (c : Char) : Bool :=
  c = ' ' || c = '\t' || c = '\n' || c = '\r' || c = '\x0b' || c = '\x0c' ||
  c.toNat = 0xA0 || c.toNat = 0xFEFF || c.toNat = 0x1680 ||
  (0x2000 ≤ c.toNat && c.toNat ≤ 0x200A) ||
  c.toNat = 0x2028 || c.toNat = 0x2029 || c.toNat = 0x202F ||
  c.toNat = 0x205F || c.toNat = 0x3000

/-- Model of JavaScript `String.prototype.trim`. -/
def jsTrim (s : String) : String :=
  String.mk (((s.data.dropWhile isJsWs).reverse.dropWhile isJsWs).reverse)

/-- Does the text begin with three backticks (`jsonText.startsWith` on
line 204)? -/
def startsWithFence : List Char → Bool
  | '\x60' :: '\x60' :: '\x60' :: _ => true
  | _ => false

/-- Global replacement of the first fence regex of line 205: scanning left
to right, every occurrence of three backticks followed by the letters
`jso`, an optional `n` and an optional newline is deleted (greedy, so the
longest of the four alternatives is removed at each match); scanning
resumes after each match. -/
def replaceFenceAll : List Char → List Char
  | '\x60' :: '\x60' :: '\x60' :: 'j' :: 's' :: 'o' :: 'n' :: '\n' :: rest => replaceFenceAll rest
  | '\x60' :: '\x60' :: '\x60' :: 'j' :: 's' :: 'o' :: 'n' :: rest => replaceFenceAll rest
  | '\x60' :: '\x60' :: '\x60' :: 'j' :: 's' :: 'o' :: '\n' :: rest => replaceFenceAll rest
  | '\x60' :: '\x60' :: '\x60' :: 'j' :: 's' :: 'o' :: rest => replaceFenceAll rest
  | c :: rest => c :: replaceFenceAll rest
  | [] => []

/-- The second replacement of line 205, anchored at the end of the string:
if the text ends with three backticks followed only by whitespace, that
final fence and the trailing whitespace are removed (at most one removal —
the regex engine finds a single match since every match must reach the end
of the string). -/
def stripTrailingFence (cs : List Char) : List Char :=
  match cs.reverse.dropWhile isJsWs with
  | '\x60' :: '\x60' :: '\x60' :: rest => rest.reverse
  | _ => cs

/-- The text handed to `JSON.parse` on line 207: the trimmed reply, with
the two fence replacements (and a further trim) applied when the trimmed
reply starts with three backticks. -/
def fencesStripped (t : String) : String :=
  let j := jsTrim t
  if startsWithFence j.data then
    jsTrim (String.mk (stripTrailingFence (replaceFenceAll j.data)))
  else j

/-! ## Request/response data model -/

/-- Body of a response sent with `res.status(...).json(...)` (or
`res.end()` for the preflight short-circuit).  `rawFallback raw message`
stands for the JSON body with `success: true`, the raw reply text, a null
`parsed` field, and the explanatory message; `structured parsed` stands for
the JSON body with `success: true` and the parsed value. -/
inductive ResponseBody where
  | empty
  | errorOnly (error : String)
  | errorDetails (error : String) (details : String)
  | errorMessage (error : String) (message : String)
  | structured (parsed : JsonValue)
  | rawFallback (raw : String) (message : String)

/-- An HTTP response of the handler: status code and JSON body. -/
structure Response where
  status : Nat
  body : ResponseBody

/-- The fields destructured from `req.body` on line 24.  `none` models an
absent (undefined) field. -/
structure RequestBody where
  parseType : Option String
  content : Option String
  imageBase64 : Option String
  mimeType : Option String
  existingShips : Option (List String)

/-- JavaScript truthiness of an optional string: absent and empty strings
are falsy. -/
def truthy : Option String → Bool
  | none => false
  | some s => !(s == "")

/-- Truthiness of `existingShips && existingShips.length > 0` (line 84). -/
def truthyShips : Option (List String) → Bool
  | none => false
  | some l => 0 < l.length

/-- JavaScript `a || b` for an optional string `a` and a string default. -/
def jsOr (v : Option String) (dflt : String) : String :=
  if truthy v then v.getD "" else dflt

/-- Stringification of a possibly-undefined value inside a template
literal: an absent value prints as `undefined`. -/
def jsStr : Option String → String
  | none => "undefined"
  | some s => s

/-- One content block of a chat message (line 139-152). -/
inductive ContentBlock where
  | image (sourceType : String) (media_type : String) (data : String)
  | text (t : String)

/-- The `content` field of a chat message: a plain string (possibly the
undefined `userPrompt`) or a list of content blocks. -/
inductive MessageContent where
  | plain (s : Option String)
  | blocks (bs : List ContentBlock)

/-- One message of the outbound `messages` array. -/
structure ChatMessage where
  role : String
  content : MessageContent

/-- The JSON body of the outbound call to the provider (lines 174-179). -/
structure OutboundRequest where
  model : String
  max_tokens : Nat
  system : String
  messages : List ChatMessage

/-- One block of `data.content` in the reply of the provider (line 194). -/
structure ApiContentBlock where
  type : String
  text : String

/-- Outcome of the outbound `fetch` as observed by the handler: either a
response with its status, its body text (read by `response.text()` on the
error path) and the `content` blocks of its JSON body (read by
`response.json()` on the success path), or an exception (network failure,
body decoding failure), which lands in the outer catch. -/
inductive FetchOutcome where
  | response (status : Nat) (bodyText : String) (blocks : List ApiContentBlock)
  | thrown (message : String)

/-! ## Handler constants (the literal strings of analyze.js) -/

def methodNotAllowedError : String := "Method not allowed"

def missingKeyError : String :=
  "Claude API key not configured. Add ANTHROPIC_API_KEY to Vercel Environment Variables."

def invalidParseTypeError : String :=
  "Invalid parseType. Use \"email\", \"message\", or \"tally\""

def missingContentError : String := "Provide either text content or image"

def upstreamErrorLabel : String := "Claude API error"

def noTextError : String := "No text response from Claude"

def fallbackMessage : String := "Could not parse as JSON, returning raw analysis"

def serverErrorLabel : String := "Server error"

def defaultImageInstruction : String :=
  "Extract all shipping information from this image. Return JSON only."

/-- Lead-in of the `existingShips` suffix appended to the email system
prompt on line 85. -/
def existingShipsLead : String :=
  "\n\nExisting ships in the system (try to match vessel names): "

/-- Lead-in of the tally-mode user prompt (line 126). -/
def tallyUserLead : String := "Analyze this tally/discharge report:\n\n"

/-- Stand-in for the email/message-mode system prompt literal of lines
31-79.  Its prose (a schema description for the model) is never branched
on by the handler, so its exact contents are irrelevant to every theorem
below; only its identity as the string assigned to `systemPrompt` matters. -/
def emailSystemPromptText : String := "EMAIL_SYSTEM_PROMPT"

/-- Stand-in for the tally-mode system prompt literal of lines 89-124, on
the same grounds. -/
def tallySystemPromptText : String := "TALLY_SYSTEM_PROMPT"

/-! ## The handler pipeline (analyze.js lines 4-230) -/

/-- Lines 26-129: selection of `systemPrompt` and `userPrompt` from the
parse mode.  For email/message mode `userPrompt` is assigned the raw
`content` value (possibly undefined); for tally mode it is a template
literal embedding `content`; any other `parseType` is rejected with the
400 invalid-parse-type response before messages are built. -/
def promptPhase (b : RequestBody) : Except Response (String × Option String) :=
  if b.parseType = some "email" ∨ b.parseType = some "message" then
    Except.ok
      (if truthyShips b.existingShips then
        emailSystemPromptText ++
          (existingShipsLead ++ String.intercalate ", " (b.existingShips.getD []))
       else emailSystemPromptText,
       b.content)
  else if b.parseType = some "tally" then
    Except.ok (tallySystemPromptText, some (tallyUserLead ++ jsStr b.content))
  else
    Except.error ⟨400, ResponseBody.errorOnly invalidParseTypeError⟩

/-- Lines 131-164: construction of the `messages` array.  A truthy
`imageBase64` selects the vision form (image block plus text block, the
text defaulting when `userPrompt` is falsy, the media type defaulting to
`image/jpeg`); otherwise a truthy `content` selects the plain-text form;
otherwise the 400 missing-content response is returned. -/
def messagesPhase (b : RequestBody) (userPrompt : Option String) :
    Except Response (List ChatMessage) :=
  if truthy b.imageBase64 then
    Except.ok
      [⟨"user",
        MessageContent.blocks
          [ContentBlock.image "base64" (jsOr b.mimeType "image/jpeg") (b.imageBase64.getD ""),
           ContentBlock.text (jsOr userPrompt defaultImageInstruction)]⟩]
  else if truthy b.content then
    Except.ok [⟨"user", MessageContent.plain userPrompt⟩]
  else
    Except.error ⟨400, ResponseBody.errorOnly missingContentError⟩

/-- The outbound request body of lines 174-179, or the 400 response that
pre-empts it. -/
def outboundRequest (b : RequestBody) : Except Response OutboundRequest :=
  match promptPhase b with
  | Except.error r => Except.error r
  | Except.ok su =>
    match messagesPhase b su.2 with
    | Except.error r => Except.error r
    | Except.ok msgs => Except.ok ⟨"claude-sonnet-4-20250514", 4096, su.1, msgs⟩

/-- Everything before the outbound call (lines 10-180): the OPTIONS
preflight short-circuit, the POST-only check, the credential check
(`process.env.ANTHROPIC_API_KEY`, falsy when absent or empty), and the
body validation that produces the outbound request. -/
def preFetch (method : String) (apiKey : Option String) (b : RequestBody) :
    Except Response OutboundRequest :=
  if method = "OPTIONS" then Except.error ⟨200, ResponseBody.empty⟩
  else if method ≠ "POST" then
    Except.error ⟨405, ResponseBody.errorOnly methodNotAllowedError⟩
  else if truthy apiKey = false then
    Except.error ⟨500, ResponseBody.errorOnly missingKeyError⟩
  else outboundRequest b

/-- Lines 199-221: normalization of the model reply text — fence
stripping, `JSON.parse`, and on success the structured 200 response, on
parse failure the 200 raw fallback carrying the original reply text. -/
def normalize (reply : String) : Response :=
  match parseJson (fencesStripped reply) with
  | some v => ⟨200, ResponseBody.structured v⟩
  | none => ⟨200, ResponseBody.rawFallback reply fallbackMessage⟩

/-- Lines 182-221: handling of the fetch outcome.  A thrown error reaches
the outer catch (500 server error); a non-ok status (outside 200-299, per
`response.ok`) is surfaced with the upstream status and body text; an ok
response is searched for its first text block, whose text is normalized. -/
def afterFetch : FetchOutcome → Response
  | FetchOutcome.thrown msg => ⟨500, ResponseBody.errorMessage serverErrorLabel msg⟩
  | FetchOutcome.response status bodyText blocks =>
    if 200 ≤ status ∧ status ≤ 299 then
      match blocks.find? (fun c => c.type == "text") with
      | none => ⟨500, ResponseBody.errorOnly noTextError⟩
      | some tc => normalize tc.text
    else ⟨status, ResponseBody.errorDetails upstreamErrorLabel bodyText⟩

/-- The whole handler: validation, the single outbound call (represented
by the function `fetch` from the outbound request to its outcome), and
response production.  Exactly one response value is returned per
invocation. -/
def handler (method : String) (apiKey : Option String) (b : RequestBody)
    (fetch : OutboundRequest → FetchOutcome) : Response :=
  match preFetch method apiKey b with
  | Except.error r => r
  | Except.ok req => afterFetch (fetch req)

/-! ## ExtractionResult variant classification (spec section 3)

The `ExtractionResult` taxonomy of the spec: a structured success (success with
a parsed object, 2xx), a raw fallback (success with raw text and null
parsed, 2xx), or a failure (an error body with a non-2xx status). -/

/-- Is the response the `Structured` variant? -/
def isStructuredResp (r : Response) : Bool :=
  match r.body with
  | ResponseBody.structured _ => r.status == 200
  | _ => false

/-- Is the response the `RawFallback` variant? -/
def isFallbackResp (r : Response) : Bool :=
  match r.body with
  | ResponseBody.rawFallback _ _ => r.status == 200
  | _ => false

/-- Is the response the `Failure` variant (an error body with a non-2xx
status)? -/
def isFailureResp (r : Response) : Bool :=
  match r.body with
  | ResponseBody.errorOnly _ => !(decide (200 ≤ r.status ∧ r.status ≤ 299))
  | ResponseBody.errorDetails _ _ => !(decide (200 ≤ r.status ∧ r.status ≤ 299))
  | ResponseBody.errorMessage _ _ => !(decide (200 ≤ r.status ∧ r.status ≤ 299))
  | _ => false

/-- How many of the three `ExtractionResult` variants the response
matches. -/
def variantCount (r : Response) : Nat :=
  (if isStructuredResp r then 1 else 0) +
  (if isFallbackResp r then 1 else 0) +
  (if isFailureResp r then 1 else 0)

/-! ## Shared helper lemmas -/

/-- A string with a nonempty left factor is nonempty. -/
theorem append_ne_empty_left (p c : String) (hp : p ≠ "") : p ++ c ≠ "" := by
  cases p with | mk l =>
  cases c with | mk m =>
  cases l with
  | nil => exact absurd rfl hp
  | cons a as =>
    intro h
    have hd := congrArg String.data h
    simp [String.data_append] at hd

/-- A nonempty string is truthy. -/
theorem truthy_some_ne (s : String) (hs : s ≠ "") : truthy (some s) = true := by
  simp [truthy, hs]

/-- `jsOr` of a truthy value is the value itself. -/
theorem jsOr_some_ne (s : String) (d : String) (hs : s ≠ "") :
    jsOr (some s) d = s := by
  simp [jsOr, truthy_some_ne s hs]

set_option maxHeartbeats 1000000 in
/-- The fence scan copies any character other than a backtick and moves
on: only a backtick can begin a match of the first fence pattern. -/
theorem replaceFenceAll_cons_ne (c : Char) (L : List Char) (hc : c ≠ '\x60') :
    replaceFenceAll (c :: L) = c :: replaceFenceAll L := by
  rw [replaceFenceAll.eq_def]
  split
  next heq => injection heq with h1 _; exact absurd h1 hc
  next heq => injection heq with h1 _; exact absurd h1 hc
  next heq => injection heq with h1 _; exact absurd h1 hc
  next heq => injection heq with h1 _; exact absurd h1 hc
  next =>
    rename_i heq
    injection heq with h1 h2
    rw [h1, h2]
  next =>
    rename_i heq
    cases heq

/-! ## Claims -/

/-- C1: the claim says that a model reply whose trimmed text is wrapped in
triple-backtick fences is stripped and parsed successfully with or without
a `json` tag after the opening fence.  The code contradicts this for bare
fences: the first replacement pattern makes the letters `jso` mandatory
(only its final `n` is optional), so a bare opening fence survives into
`JSON.parse`, which then fails, and the reply falls back to the raw
variant.  The guard `jsonText.startsWith` on a bare fence and the comment
"Remove markdown code blocks if present" show the intent the claim states.
This theorem evaluates the code at the failing bare-fence input (first
conjunct) and at the tagged input, which does behave as claimed (second
conjunct). -/
theorem C1_fence_eval :
    normalize "```\n\x7b\"a\":1\x7d\n```" =
      ⟨200, ResponseBody.rawFallback "```\n\x7b\"a\":1\x7d\n```" fallbackMessage⟩ ∧
    normalize "```json\n\x7b\"a\":1\x7d\n```" =
      ⟨200, ResponseBody.structured (JsonValue.obj [("a", JsonValue.num "1")])⟩ :=
  ⟨rfl, rfl⟩

/-- C4: a reply whose trimmed text does not begin with a triple-backtick
fence and parses as JSON is returned as the `Structured` variant carrying
exactly the parsed value — round-trip identity, no schema validation and
no alteration of the value. -/
theorem C4_roundtrip (t : String) (v : JsonValue)
    (hf : startsWithFence (jsTrim t).data = false)
    (hp : parseJson (jsTrim t) = some v) :
    normalize t = ⟨200, ResponseBody.structured v⟩ := by
  unfold normalize fencesStripped
  simp only [hf, Bool.false_eq_true, if_false, hp]

/-- Witness for C4 at a concrete fence-free JSON reply. -/
theorem C4_roundtrip_witness :
    startsWithFence (jsTrim " \x7b\"k\": [true, null, -12.5e2, \"s\"]\x7d ").data = false ∧
    parseJson (jsTrim " \x7b\"k\": [true, null, -12.5e2, \"s\"]\x7d ") =
      some (JsonValue.obj [("k", JsonValue.arr
        [JsonValue.bool true, JsonValue.null, JsonValue.num "-12.5e2", JsonValue.str "s"])]) ∧
    normalize " \x7b\"k\": [true, null, -12.5e2, \"s\"]\x7d " =
      ⟨200, ResponseBody.structured (JsonValue.obj [("k", JsonValue.arr
        [JsonValue.bool true, JsonValue.null, JsonValue.num "-12.5e2", JsonValue.str "s"])])⟩ :=
  ⟨rfl, rfl, C4_roundtrip _ _ rfl rfl⟩

/-- C5: a reply whose text, after the optional fence stripping, is not
valid JSON is returned as the successful `RawFallback` variant (status
200): the raw field carries the original reply text verbatim — untrimmed,
fences intact — the parsed field is null (part of the `rawFallback`
reading of the constructor), and no error status is produced. -/
theorem C5_raw_fallback (t : String)
    (hp : parseJson (fencesStripped t) = none) :
    normalize t = ⟨200, ResponseBody.rawFallback t fallbackMessage⟩ := by
  unfold normalize
  rw [hp]

/-- Witness for C5 at the empty reply and at a plain-prose reply. -/
theorem C5_raw_fallback_witness :
    parseJson (fencesStripped "") = none ∧
    normalize "" = ⟨200, ResponseBody.rawFallback "" fallbackMessage⟩ ∧
    parseJson (fencesStripped "Sorry, I cannot process this.") = none ∧
    normalize "Sorry, I cannot process this." =
      ⟨200, ResponseBody.rawFallback "Sorry, I cannot process this." fallbackMessage⟩ :=
  ⟨rfl, C5_raw_fallback "" rfl, rfl, C5_raw_fallback "Sorry, I cannot process this." rfl⟩

/-- C3 counterexample: the claim says the fence-stripping removes only a
single leading and a single trailing fence marker, leaving interior fence
markers intact.  In fact the first replacement carries the global flag:
on the reply whose JSON string content contains an interior tagged marker,
that interior marker is deleted as well (here even altering the parsed
string, from the content between the outer fences to a double-spaced
variant with the marker excised). -/
theorem C3_counterexample :
    fencesStripped "```json\n\"x ```json y\"\n```" = "\"x  y\"" ∧
    normalize "```json\n\"x ```json y\"\n```" =
      ⟨200, ResponseBody.structured (JsonValue.str "x  y")⟩ :=
  ⟨rfl, rfl⟩

/-- C3 (amended): the first fence replacement is global — it removes every
occurrence of the tagged marker (three backticks, the letters `jso`, an
optional `n`, an optional newline) anywhere in the text, not only a
leading one.  Stated for a marker with the `json` tag and newline sitting
after any backtick-free region: the scan copies that region and still
deletes the interior marker. -/
theorem C3_global_removal (x y : List Char)
    (hx : ∀ c ∈ x, c ≠ '\x60') :
    replaceFenceAll
        (x ++ ('\x60' :: '\x60' :: '\x60' :: 'j' :: 's' :: 'o' :: 'n' :: '\n' :: y)) =
      x ++ replaceFenceAll y := by
  induction x with
  | nil => rfl
  | cons c xs ih =>
    have hc : c ≠ '\x60' := hx c (List.mem_cons_self c xs)
    have ih2 := ih (fun d hd => hx d (List.mem_cons_of_mem c hd))
    simp only [List.cons_append]
    rw [replaceFenceAll_cons_ne c _ hc, ih2]

/-- Witness for C3's amended theorem at a concrete backtick-free region. -/
theorem C3_global_removal_witness :
    (∀ c ∈ ("ab".data), c ≠ '\x60') ∧
    replaceFenceAll
        ("ab".data ++ ('\x60' :: '\x60' :: '\x60' :: 'j' :: 's' :: 'o' :: 'n' :: '\n' :: "z".data)) =
      "ab".data ++ replaceFenceAll "z".data :=
  ⟨by decide, C3_global_removal "ab".data "z".data (by decide)⟩

/-- C6: when the provider credential is absent from the environment (or
empty — both are falsy), every POST request is answered with the 500
missing-credential failure, whatever the body contains; the pre-fetch
phase already fails, so the outcome is independent of the outbound call
(none is made) and the body is never examined. -/
theorem C6_missing_credential (key : Option String) (b : RequestBody)
    (fetch : OutboundRequest → FetchOutcome)
    (hk : truthy key = false) :
    handler "POST" key b fetch = ⟨500, ResponseBody.errorOnly missingKeyError⟩ ∧
    preFetch "POST" key b = Except.error ⟨500, ResponseBody.errorOnly missingKeyError⟩ := by
  have hpre : preFetch "POST" key b =
      Except.error ⟨500, ResponseBody.errorOnly missingKeyError⟩ := by
    unfold preFetch
    rw [if_neg (by decide : ¬("POST" : String) = "OPTIONS"),
        if_neg (by simp : ¬("POST" : String) ≠ "POST"),
        if_pos hk]
  exact ⟨by unfold handler; rw [hpre], hpre⟩

/-- Witness for C6: an absent credential and a fully valid payload still
produce the 500 missing-credential response. -/
theorem C6_missing_credential_witness :
    truthy none = false ∧
    handler "POST" none ⟨some "email", some "hello", none, none, none⟩
        (fun _ => FetchOutcome.thrown "") =
      ⟨500, ResponseBody.errorOnly missingKeyError⟩ :=
  ⟨rfl,
   (C6_missing_credential none ⟨some "email", some "hello", none, none, none⟩
     (fun _ => FetchOutcome.thrown "") rfl).1⟩

/-- C7: a transport-level failure of the single outbound call is caught at
the handler boundary and turned into a structured failure response.  A
non-success upstream status (outside 200-299, the `response.ok` range) is
surfaced with the upstream status as the response status and the upstream
body in the details field; a thrown network error reaches the outer catch
and becomes the 500 server-error response carrying the error message —
neither crashes the handler, which still returns exactly one response. -/
theorem C7_upstream_failure (key : Option String) (b : RequestBody)
    (fetch : OutboundRequest → FetchOutcome) (req : OutboundRequest)
    (hpre : preFetch "POST" key b = Except.ok req) :
    (∀ (s : Nat) (bt : String) (blocks : List ApiContentBlock),
      fetch req = FetchOutcome.response s bt blocks → ¬(200 ≤ s ∧ s ≤ 299) →
      handler "POST" key b fetch = ⟨s, ResponseBody.errorDetails upstreamErrorLabel bt⟩) ∧
    (∀ m : String, fetch req = FetchOutcome.thrown m →
      handler "POST" key b fetch = ⟨500, ResponseBody.errorMessage serverErrorLabel m⟩) := by
  constructor
  · intro s bt blocks hf hs
    unfold handler
    rw [hpre]
    show afterFetch (fetch req) = _
    rw [hf]
    simp [afterFetch, hs]
  · intro m hf
    unfold handler
    rw [hpre]
    show afterFetch (fetch req) = _
    rw [hf]
    rfl

/-- Witness for C7 at a concrete valid body, a 529 upstream response and a
thrown network error. -/
theorem C7_upstream_failure_witness :
    preFetch "POST" (some "k") ⟨some "email", some "hi", none, none, none⟩ =
      Except.ok ⟨"claude-sonnet-4-20250514", 4096, emailSystemPromptText,
        [⟨"user", MessageContent.plain (some "hi")⟩]⟩ ∧
    ¬(200 ≤ 529 ∧ 529 ≤ 299) ∧
    handler "POST" (some "k") ⟨some "email", some "hi", none, none, none⟩
        (fun _ => FetchOutcome.response 529 "overloaded" []) =
      ⟨529, ResponseBody.errorDetails upstreamErrorLabel "overloaded"⟩ ∧
    handler "POST" (some "k") ⟨some "email", some "hi", none, none, none⟩
        (fun _ => FetchOutcome.thrown "fetch failed") =
      ⟨500, ResponseBody.errorMessage serverErrorLabel "fetch failed"⟩ :=
  ⟨rfl, by decide,
   (C7_upstream_failure (some "k") ⟨some "email", some "hi", none, none, none⟩
       (fun _ => FetchOutcome.response 529 "overloaded" []) _ rfl).1
     529 "overloaded" [] rfl (by decide),
   (C7_upstream_failure (some "k") ⟨some "email", some "hi", none, none, none⟩
       (fun _ => FetchOutcome.thrown "fetch failed") _ rfl).2
     "fetch failed" rfl⟩

/-- C2 counterexample: the claim says that a body lacking both `content`
and `imageBase64` is rejected with the missing-content failure regardless
of the supplied `parseType`, with no prompt string constructed first.
Both parts fail on the code: with an unrecognized `parseType` the handler
returns the invalid-parse-type error instead (first two conjuncts), and
with a recognized `parseType` the prompt phase completes — the system
prompt is built and the user prompt assigned — before the missing-content
rejection (last two conjuncts). -/
theorem C2_counterexample :
    handler "POST" (some "k") ⟨some "bogus", none, none, none, none⟩
        (fun _ => FetchOutcome.thrown "") =
      ⟨400, ResponseBody.errorOnly invalidParseTypeError⟩ ∧
    invalidParseTypeError ≠ missingContentError ∧
    promptPhase ⟨some "email", none, none, none, none⟩ =
      Except.ok (emailSystemPromptText, none) ∧
    handler "POST" (some "k") ⟨some "email", none, none, none, none⟩
        (fun _ => FetchOutcome.thrown "") =
      ⟨400, ResponseBody.errorOnly missingContentError⟩ :=
  ⟨rfl, by decide, rfl, rfl⟩

/-- C2 (amended): for a POST request with a truthy credential and a
recognized `parseType`, a body whose `content` and `imageBase64` are both
falsy (absent or empty) is answered with the 400 missing-content failure;
the prompt phase has already completed by then (system and user prompt
strings are constructed before the rejection).  An unrecognized
`parseType` is instead answered with the 400 invalid-parse-type failure,
per the counterexample. -/
theorem C2_missing_payload (b : RequestBody) (key : Option String)
    (fetch : OutboundRequest → FetchOutcome)
    (hk : truthy key = true)
    (hpt : b.parseType = some "email" ∨ b.parseType = some "message" ∨
      b.parseType = some "tally")
    (hc : truthy b.content = false) (hi : truthy b.imageBase64 = false) :
    handler "POST" key b fetch = ⟨400, ResponseBody.errorOnly missingContentError⟩ ∧
    ∃ sys up, promptPhase b = Except.ok (sys, up) := by
  have hmsg : ∀ up : Option String, messagesPhase b up =
      Except.error ⟨400, ResponseBody.errorOnly missingContentError⟩ := by
    intro up
    unfold messagesPhase
    rw [if_neg (by simp [hi]), if_neg (by simp [hc])]
  obtain ⟨sys, up, hpp⟩ : ∃ sys up, promptPhase b = Except.ok (sys, up) := by
    rcases hpt with h | h | h
    · exact ⟨_, _, by unfold promptPhase; rw [if_pos (Or.inl h)]⟩
    · exact ⟨_, _, by unfold promptPhase; rw [if_pos (Or.inr h)]⟩
    · exact ⟨_, _, by unfold promptPhase; rw [if_neg (by simp [h]), if_pos h]⟩
  have hout : outboundRequest b =
      Except.error ⟨400, ResponseBody.errorOnly missingContentError⟩ := by
    simp only [outboundRequest, hpp, hmsg]
  refine ⟨?_, sys, up, hpp⟩
  unfold handler preFetch
  rw [if_neg (by decide : ¬("POST" : String) = "OPTIONS"),
      if_neg (by simp : ¬("POST" : String) ≠ "POST"),
      if_neg (by simp [hk]), hout]

/-- Witness for C2's amended theorem: a tally-mode body with no payload. -/
theorem C2_missing_payload_witness :
    truthy (some "k") = true ∧
    handler "POST" (some "k") ⟨some "tally", none, none, none, none⟩
        (fun _ => FetchOutcome.thrown "") =
      ⟨400, ResponseBody.errorOnly missingContentError⟩ ∧
    ∃ sys up, promptPhase ⟨some "tally", none, none, none, none⟩ =
      Except.ok (sys, up) :=
  ⟨rfl,
   (C2_missing_payload ⟨some "tally", none, none, none, none⟩ (some "k")
     (fun _ => FetchOutcome.thrown "") rfl (Or.inr (Or.inr rfl)) rfl rfl).1,
   (C2_missing_payload ⟨some "tally", none, none, none, none⟩ (some "k")
     (fun _ => FetchOutcome.thrown "") rfl (Or.inr (Or.inr rfl)) rfl rfl).2⟩

/-- C9: when both `content` and `imageBase64` are present (truthy — the
notion of presence used by the code), the handler takes the image path for every
recognized mode: the single message of the outbound request carries the image
block together with a text block holding the user prompt of the mode, which
embeds the content (for email/message mode the user prompt is the content
itself; for tally mode it is the tally lead-in followed by the content).
The text-only branch is not taken and no missing-content failure is
produced, since the message assembly succeeds. -/
theorem C9_image_path (b : RequestBody) (c img : String)
    (hpt : b.parseType = some "email" ∨ b.parseType = some "message" ∨
      b.parseType = some "tally")
    (hc : b.content = some c) (hcne : c ≠ "")
    (hi : b.imageBase64 = some img) (hine : img ≠ "") :
    ∃ (sys : String) (t : String),
      outboundRequest b = Except.ok ⟨"claude-sonnet-4-20250514", 4096, sys,
        [⟨"user", MessageContent.blocks
          [ContentBlock.image "base64" (jsOr b.mimeType "image/jpeg") img,
           ContentBlock.text t]⟩]⟩ ∧
      ∃ pre post, t.data = pre ++ c.data ++ post := by
  have himg : truthy b.imageBase64 = true := by
    rw [hi]; exact truthy_some_ne img hine
  have hmsgs : ∀ up : Option String, messagesPhase b up = Except.ok
      [⟨"user", MessageContent.blocks
        [ContentBlock.image "base64" (jsOr b.mimeType "image/jpeg") img,
         ContentBlock.text (jsOr up defaultImageInstruction)]⟩] := by
    intro up
    unfold messagesPhase
    rw [if_pos himg, hi]
    simp only [Option.getD_some]
  rcases hpt with h | h | h
  · refine ⟨(if truthyShips b.existingShips then
        emailSystemPromptText ++
          (existingShipsLead ++ String.intercalate ", " (b.existingShips.getD []))
      else emailSystemPromptText), c, ?_, [], [], by simp⟩
    have hpp : promptPhase b = Except.ok
        ((if truthyShips b.existingShips then
            emailSystemPromptText ++
              (existingShipsLead ++ String.intercalate ", " (b.existingShips.getD []))
          else emailSystemPromptText), b.content) := by
      unfold promptPhase; rw [if_pos (Or.inl h)]
    simp only [outboundRequest, hpp, hmsgs, hc, jsOr_some_ne c _ hcne]
  · refine ⟨(if truthyShips b.existingShips then
        emailSystemPromptText ++
          (existingShipsLead ++ String.intercalate ", " (b.existingShips.getD []))
      else emailSystemPromptText), c, ?_, [], [], by simp⟩
    have hpp : promptPhase b = Except.ok
        ((if truthyShips b.existingShips then
            emailSystemPromptText ++
              (existingShipsLead ++ String.intercalate ", " (b.existingShips.getD []))
          else emailSystemPromptText), b.content) := by
      unfold promptPhase; rw [if_pos (Or.inr h)]
    simp only [outboundRequest, hpp, hmsgs, hc, jsOr_some_ne c _ hcne]
  · refine ⟨tallySystemPromptText, tallyUserLead ++ c, ?_, tallyUserLead.data, [],
      by simp [String.data_append]⟩
    have hpp : promptPhase b = Except.ok
        (tallySystemPromptText, some (tallyUserLead ++ jsStr b.content)) := by
      unfold promptPhase; rw [if_neg (by simp [h]), if_pos h]
    have hne : tallyUserLead ++ c ≠ "" :=
      append_ne_empty_left tallyUserLead c (by decide)
    simp only [outboundRequest, hpp, hmsgs, hc, jsStr, jsOr_some_ne _ _ hne]

/-- Witness for C9 at a concrete tally-mode body carrying both content
and image. -/
theorem C9_image_path_witness :
    ("hello" : String) ≠ "" ∧ ("IMGDATA" : String) ≠ "" ∧
    ∃ (sys : String) (t : String),
      outboundRequest ⟨some "tally", some "hello", some "IMGDATA", none, none⟩ =
        Except.ok ⟨"claude-sonnet-4-20250514", 4096, sys,
          [⟨"user", MessageContent.blocks
            [ContentBlock.image "base64"
              (jsOr (⟨some "tally", some "hello", some "IMGDATA", none, none⟩ :
                RequestBody).mimeType "image/jpeg") "IMGDATA",
             ContentBlock.text t]⟩]⟩ ∧
      ∃ pre post, t.data = pre ++ ("hello" : String).data ++ post :=
  ⟨by decide, by decide,
   C9_image_path ⟨some "tally", some "hello", some "IMGDATA", none, none⟩
     "hello" "IMGDATA" (Or.inr (Or.inr rfl)) rfl (by decide) rfl (by decide)⟩

/-- C10: a request carrying a truthy `imageBase64` with `mimeType` absent
(or empty — both falsy) has an outbound image block whose declared media
type defaults to `image/jpeg`.  A recognized `parseType` is assumed, since
otherwise no outbound request (and hence no image block) exists at all. -/
theorem C10_default_media_type (b : RequestBody) (img : String)
    (hpt : b.parseType = some "email" ∨ b.parseType = some "message" ∨
      b.parseType = some "tally")
    (hi : b.imageBase64 = some img) (hine : img ≠ "")
    (hm : truthy b.mimeType = false) :
    ∃ (sys : String) (t : String),
      outboundRequest b = Except.ok ⟨"claude-sonnet-4-20250514", 4096, sys,
        [⟨"user", MessageContent.blocks
          [ContentBlock.image "base64" "image/jpeg" img,
           ContentBlock.text t]⟩]⟩ := by
  have himg : truthy b.imageBase64 = true := by
    rw [hi]; exact truthy_some_ne img hine
  have hmime : jsOr b.mimeType "image/jpeg" = "image/jpeg" := by
    simp [jsOr, hm]
  have hmsgs : ∀ up : Option String, messagesPhase b up = Except.ok
      [⟨"user", MessageContent.blocks
        [ContentBlock.image "base64" "image/jpeg" img,
         ContentBlock.text (jsOr up defaultImageInstruction)]⟩] := by
    intro up
    unfold messagesPhase
    rw [if_pos himg, hi, hmime]
    simp only [Option.getD_some]
  rcases hpt with h | h | h
  · refine ⟨(if truthyShips b.existingShips then
        emailSystemPromptText ++
          (existingShipsLead ++ String.intercalate ", " (b.existingShips.getD []))
      else emailSystemPromptText), jsOr b.content defaultImageInstruction, ?_⟩
    have hpp : promptPhase b = Except.ok
        ((if truthyShips b.existingShips then
            emailSystemPromptText ++
              (existingShipsLead ++ String.intercalate ", " (b.existingShips.getD []))
          else emailSystemPromptText), b.content) := by
      unfold promptPhase; rw [if_pos (Or.inl h)]
    simp only [outboundRequest, hpp, hmsgs]
  · refine ⟨(if truthyShips b.existingShips then
        emailSystemPromptText ++
          (existingShipsLead ++ String.intercalate ", " (b.existingShips.getD []))
      else emailSystemPromptText), jsOr b.content defaultImageInstruction, ?_⟩
    have hpp : promptPhase b = Except.ok
        ((if truthyShips b.existingShips then
            emailSystemPromptText ++
              (existingShipsLead ++ String.intercalate ", " (b.existingShips.getD []))
          else emailSystemPromptText), b.content) := by
      unfold promptPhase; rw [if_pos (Or.inr h)]
    simp only [outboundRequest, hpp, hmsgs]
  · refine ⟨tallySystemPromptText,
      jsOr (some (tallyUserLead ++ jsStr b.content)) defaultImageInstruction, ?_⟩
    have hpp : promptPhase b = Except.ok
        (tallySystemPromptText, some (tallyUserLead ++ jsStr b.content)) := by
      unfold promptPhase; rw [if_neg (by simp [h]), if_pos h]
    simp only [outboundRequest, hpp, hmsgs]

/-- Witness for C10 at a concrete email-mode body with an image and no
media type. -/
theorem C10_default_media_type_witness :
    ("IMG" : String) ≠ "" ∧
    truthy (⟨some "email", none, some "IMG", none, none⟩ : RequestBody).mimeType = false ∧
    ∃ (sys : String) (t : String),
      outboundRequest ⟨some "email", none, some "IMG", none, none⟩ =
        Except.ok ⟨"claude-sonnet-4-20250514", 4096, sys,
          [⟨"user", MessageContent.blocks
            [ContentBlock.image "base64" "image/jpeg" "IMG",
             ContentBlock.text t]⟩]⟩ :=
  ⟨by decide, rfl,
   C10_default_media_type ⟨some "email", none, some "IMG", none, none⟩ "IMG"
     (Or.inl rfl) rfl (by decide) rfl⟩

/-- Every fetch outcome is mapped to exactly one `ExtractionResult`
variant: a thrown error and a non-ok status give failures with non-2xx
statuses, an ok reply gives either the no-text 500 failure, the structured
200, or the fallback 200. -/
theorem variantCount_afterFetch (o : FetchOutcome) :
    variantCount (afterFetch o) = 1 := by
  cases o with
  | thrown m => rfl
  | response s bt blocks =>
    simp only [afterFetch]
    split
    · split
      · rfl
      · unfold normalize
        split
        · rfl
        · rfl
    · rename_i hok
      simp [variantCount, isStructuredResp, isFallbackResp, isFailureResp, hok]

/-- The prompt phase fails only with the 400 invalid-parse-type response. -/
theorem promptPhase_error_shape (b : RequestBody) (r : Response)
    (h : promptPhase b = Except.error r) :
    r = ⟨400, ResponseBody.errorOnly invalidParseTypeError⟩ := by
  unfold promptPhase at h
  split at h
  · exact absurd h (by simp)
  · split at h
    · exact absurd h (by simp)
    · injection h with h2
      exact h2.symm

/-- The message phase fails only with the 400 missing-content response. -/
theorem messagesPhase_error_shape (b : RequestBody) (up : Option String)
    (r : Response) (h : messagesPhase b up = Except.error r) :
    r = ⟨400, ResponseBody.errorOnly missingContentError⟩ := by
  unfold messagesPhase at h
  split at h
  · exact absurd h (by simp)
  · split at h
    · exact absurd h (by simp)
    · injection h with h2
      exact h2.symm

/-- Any error produced while building the outbound request is a single
failure variant (a 400 error response). -/
theorem variantCount_outbound_error (b : RequestBody) (r : Response)
    (h : outboundRequest b = Except.error r) : variantCount r = 1 := by
  unfold outboundRequest at h
  split at h
  · rename_i r2 hp
    injection h with h2
    rw [← h2, promptPhase_error_shape b r2 hp]
    rfl
  · rename_i su hp
    split at h
    · rename_i r2 hmm
      injection h with h2
      rw [← h2, messagesPhase_error_shape b su.2 r2 hmm]
      rfl
    · exact absurd h (by simp)

/-- Any pre-fetch rejection of a non-OPTIONS request is a single failure
variant. -/
theorem variantCount_preFetch_error (m : String) (k : Option String)
    (b : RequestBody) (r : Response) (hm : m ≠ "OPTIONS")
    (h : preFetch m k b = Except.error r) : variantCount r = 1 := by
  unfold preFetch at h
  rw [if_neg hm] at h
  by_cases hp : m ≠ "POST"
  · rw [if_pos hp] at h
    injection h with h2
    rw [← h2]
    rfl
  · rw [if_neg hp] at h
    by_cases hk : truthy k = false
    · rw [if_pos hk] at h
      injection h with h2
      rw [← h2]
      rfl
    · rw [if_neg hk] at h
      exact variantCount_outbound_error b r h

/-- C8 counterexample: the claim says every invocation of the handler
produces exactly one `ExtractionResult` variant.  An OPTIONS preflight
invocation produces the empty 200 response, which is none of the three
variants (not structured, not a raw fallback, not an error body). -/
theorem C8_counterexample :
    handler "OPTIONS" none ⟨none, none, none, none, none⟩
        (fun _ => FetchOutcome.thrown "") = ⟨200, ResponseBody.empty⟩ ∧
    variantCount ⟨200, ResponseBody.empty⟩ = 0 :=
  ⟨rfl, rfl⟩

/-- C8 (amended): every non-OPTIONS invocation of the handler produces
exactly one `ExtractionResult` variant — a structured success with status
200, a raw fallback with status 200, or a failure body with a non-2xx
status — never a partial or merged combination; the OPTIONS preflight
instead returns an empty 200 outside the taxonomy.  The handler being a
function, exactly one response is produced per call in every case. -/
theorem C8_one_variant (m : String) (k : Option String) (b : RequestBody)
    (fetch : OutboundRequest → FetchOutcome) (hm : m ≠ "OPTIONS") :
    variantCount (handler m k b fetch) = 1 := by
  unfold handler
  cases hpre : preFetch m k b with
  | error r => exact variantCount_preFetch_error m k b r hm hpre
  | ok req => exact variantCount_afterFetch (fetch req)

/-- Witness for C8's amended theorem: a POST invocation reaching the
structured path yields exactly one variant. -/
theorem C8_one_variant_witness :
    ("POST" : String) ≠ "OPTIONS" ∧
    variantCount (handler "POST" (some "k") ⟨some "email", some "hi", none, none, none⟩
      (fun _ => FetchOutcome.response 200 "" [⟨"text", "\x7b\"a\":1\x7d"⟩])) = 1 :=
  ⟨by decide,
   C8_one_variant "POST" (some "k") ⟨some "email", some "hi", none, none, none⟩
     (fun _ => FetchOutcome.response 200 "" [⟨"text", "\x7b\"a\":1\x7d"⟩])
     (by decide)⟩

end Tomelon
